import Mathlib

set_option maxRecDepth 10000

/-!
Verification of the `DynamicInputs` node of ComfyUI-DynamicInputsHotFix
(src/__init__.py) against its specification.

The Python source defines a single class `DynamicInputs` with
  * class attributes CATEGORY, RETURN_TYPES, RETURN_NAMES, FUNCTION,
  * a classmethod `INPUT_TYPES` returning `{"required": {}, "optional": {}}`,
  * a method `execute(self, **kwargs)` that builds the dictionary
      state = {"input_count": len(kwargs), "inputs": {}}
    and for every (name, value) pair records
      {"type": type(value).__name__,
       "value": f"tensor{list(value.shape)}" if hasattr(value, 'shape')
                else str(value)[:100]}
    and returns the 1-tuple `(json.dumps(state, indent=2),)`.

We embed the Python values the node manipulates, the JSON documents it
creates, and the exact text produced by `json.dumps(..., indent=2)`.
-/

/-- Model of an arbitrary Python value as the node observes it:
its runtime type name `type(value).__name__`, its generic string
conversion `str(value)`, and, when `hasattr(value, 'shape')` holds,
the shape converted to a list of integers (`list(value.shape)`). -/
structure PyValue where
  typeName : String
  strForm : String
  shape : Option (List Int)
deriving Repr, DecidableEq

/-- The Python integer `n` as a `PyValue`: type name "int", string form
`str(n)`, and no `shape` attribute. -/
def pyInt (n : Int) : PyValue :=
  { typeName := "int", strForm := toString n, shape := none }

/-- JSON values produced by the node: strings, integers and objects
with insertion-ordered fields (Python dicts preserve insertion order). -/
inductive Json where
  | str : String → Json
  | int : Int → Json
  | obj : List (String × Json) → Json
deriving Repr

/-- Field lookup in a JSON object, mirroring Python dict access. -/
def Json.getField : Json → String → Option Json
  | .obj fs, k => fs.lookup k
  | .str _, _ => none
  | .int _, _ => none

/-- The list of keys of a JSON object, in order. -/
def Json.keys : Json → List String
  | .obj fs => fs.map Prod.fst
  | .str _ => []
  | .int _ => []

/-- Lowercase hexadecimal digit, as used by Python for \u escapes. -/
def hexDigit (n : Nat) : Char :=
  if n < 10 then Char.ofNat (48 + n) else Char.ofNat (87 + n)

/-- Four lowercase hexadecimal digits of `n % 65536`. -/
def hex4 (n : Nat) : String :=
  String.mk [hexDigit (n / 4096 % 16), hexDigit (n / 256 % 16),
             hexDigit (n / 16 % 16), hexDigit (n % 16)]

/-- Escape of a single character inside a JSON string literal, as done
by Python json.dumps with its default ensure_ascii=True. -/
def jsonEscapeChar (c : Char) : String :=
  if c = '"' then "\\\""
  else if c = '\\' then "\\\\"
  else if c = Char.ofNat 10 then "\\n"
  else if c = Char.ofNat 9 then "\\t"
  else if c = Char.ofNat 13 then "\\r"
  else if c = Char.ofNat 8 then "\\b"
  else if c = Char.ofNat 12 then "\\f"
  else if c.toNat < 32 then "\\u" ++ hex4 c.toNat
  else if c.toNat ≤ 126 then String.singleton c
  else if c.toNat < 65536 then "\\u" ++ hex4 c.toNat
  else "\\u" ++ hex4 (55296 + (c.toNat - 65536) / 1024) ++
       "\\u" ++ hex4 (56320 + (c.toNat - 65536) % 1024)

/-- A JSON string literal: the escaped characters between double quotes. -/
def jsonQuote (s : String) : String :=
  "\"" ++ String.join (s.data.map jsonEscapeChar) ++ "\""

/-- A run of `n` spaces. -/
def indentStr (n : Nat) : String :=
  String.mk (List.replicate n ' ')

mutual

/-- Serialization of one JSON value at indentation level `lvl`,
following Python json.dumps(value, indent=2): an empty object prints
inline, a non-empty object opens a brace, prints one field per line
indented two further spaces, and closes at the current level. -/
def dumpsVal : Nat → Json → String
  | _, .str s => jsonQuote s
  | _, .int n => toString n
  | _, .obj [] => "\x7b\x7d"
  | lvl, .obj (f :: fs) =>
      "\x7b\n" ++ dumpsItems lvl (f :: fs) ++ "\n" ++ indentStr lvl ++ "\x7d"

/-- Serialization of the fields of a non-empty object at level `lvl`:
each field is indented by `lvl + 2` spaces, rendered as quoted key,
a colon-space key separator, and the value; fields are separated by
a comma and a newline (the indent-mode item separator of json.dumps). -/
def dumpsItems : Nat → List (String × Json) → String
  | _, [] => ""
  | lvl, [(k, v)] =>
      indentStr (lvl + 2) ++ jsonQuote k ++ ": " ++ dumpsVal (lvl + 2) v
  | lvl, (k, v) :: f :: fs =>
      indentStr (lvl + 2) ++ jsonQuote k ++ ": " ++ dumpsVal (lvl + 2) v ++
      ",\n" ++ dumpsItems lvl (f :: fs)

end

/-- Model of `json.dumps(j, indent=2)`: pretty-printed with 2-space
indentation, starting at indentation level 0. -/
def dumps (j : Json) : String :=
  dumpsVal 0 j

/-- Python `str` of a list of integers, as produced inside the f-string
`f"tensor{list(value.shape)}"`: comma-space separated elements between
square brackets. -/
def pyListRepr (xs : List Int) : String :=
  "[" ++ String.intercalate ", " (xs.map (fun i => toString i)) ++ "]"

/-- The value string the node records for one input, from src/__init__.py
lines 45-48: "tensor" followed by the stringified shape list when the
value exposes a `shape` attribute, otherwise `str(value)[:100]`. -/
def valRepr (v : PyValue) : String :=
  match v.shape with
  | some sh => "tensor" ++ pyListRepr sh
  | none => v.strForm.take 100

/-- The per-input record built at src/__init__.py lines 50-53:
the runtime type name and the rendered value string. -/
def entryJson (v : PyValue) : Json :=
  .obj [("type", .str v.typeName), ("value", .str (valRepr v))]

/-- The `inputs` object of the state dictionary: one entry per supplied
input, keyed by the input name, in supply order. -/
def inputsJson (kwargs : List (String × PyValue)) : Json :=
  .obj (kwargs.map (fun p => (p.1, entryJson p.2)))

/-- The `state` dictionary built by execute (src/__init__.py lines 40-53):
`input_count` is `len(kwargs)` and `inputs` collects the per-input
records. `kwargs` models the Python keyword-argument dict as an
insertion-ordered association list with distinct names. -/
def stateOf (kwargs : List (String × PyValue)) : Json :=
  .obj [("input_count", .int kwargs.length), ("inputs", inputsJson kwargs)]

/-- The class attributes of `DynamicInputs` (src/__init__.py lines 26-29);
an instance carries no further state. -/
structure DynamicInputs where
  CATEGORY : String := "FrontendPatches"
  RETURN_TYPES : List String := ["STRING"]
  RETURN_NAMES : List String := ["debug"]
  FUNCTION : String := "execute"
deriving Repr, DecidableEq

/-- A default instance of the node. -/
def defaultNode : DynamicInputs := {}

/-- The classmethod `DynamicInputs.INPUT_TYPES` (src/__init__.py lines
31-36): the schema configuration with `required` and `optional` both
mapped to the empty mapping; the type-descriptor mappings are modelled
as association lists from input name to descriptor string. -/
def INPUT_TYPES (_cls : Unit) : List (String × List (String × String)) :=
  [("required", []), ("optional", [])]

/-- The method `DynamicInputs.execute` (src/__init__.py lines 38-55):
builds the state dictionary from the keyword arguments and returns the
single-element tuple (modelled as a singleton list) holding
`json.dumps(state, indent=2)`. The receiver `self` is unused, exactly
as in the source. -/
def execute (_self : DynamicInputs) (kwargs : List (String × PyValue)) :
    List String :=
  [dumps (stateOf kwargs)]

/-- The entry recorded for input name `n` in the `inputs` object of the
state built from `kwargs`. -/
def recordedEntry (kwargs : List (String × PyValue)) (n : String) :
    Option Json :=
  match (stateOf kwargs).getField "inputs" with
  | some j => j.getField n
  | none => none

/-- The `value` field of the entry recorded for input name `n`. -/
def recordedValue (kwargs : List (String × PyValue)) (n : String) :
    Option Json :=
  match recordedEntry kwargs n with
  | some e => e.getField "value"
  | none => none

/-- Looking a name up in the mapped association list that forms the
`inputs` object finds exactly the image of the entry found in `kwargs`. -/
theorem lookup_map_entry (kwargs : List (String × PyValue)) (n : String) :
    (kwargs.map (fun p => (p.1, entryJson p.2))).lookup n =
      (kwargs.lookup n).map entryJson := by
  induction kwargs with
  | nil => rfl
  | cons p rest ih =>
      simp only [List.map_cons, List.lookup]
      cases h : n == p.1 <;> simp [ih]

/-- The state object always exposes its `inputs` field. -/
theorem getField_inputs (kwargs : List (String × PyValue)) :
    (stateOf kwargs).getField "inputs" = some (inputsJson kwargs) := rfl

/-- The state object always exposes its `input_count` field. -/
theorem getField_input_count (kwargs : List (String × PyValue)) :
    (stateOf kwargs).getField "input_count" =
      some (.int kwargs.length) := rfl

/-- The recorded entry for a name present in `kwargs` is the rendered
record of the value the dict associates to that name. -/
theorem recordedEntry_eq (kwargs : List (String × PyValue)) (n : String)
    (v : PyValue) (hv : kwargs.lookup n = some v) :
    recordedEntry kwargs n = some (entryJson v) := by
  unfold recordedEntry
  rw [getField_inputs]
  simp [inputsJson, Json.getField, lookup_map_entry, hv]

/-- The recorded value string for a name present in `kwargs` is
`valRepr` of the associated value. -/
theorem recordedValue_eq (kwargs : List (String × PyValue)) (n : String)
    (v : PyValue) (hv : kwargs.lookup n = some v) :
    recordedValue kwargs n = some (.str (valRepr v)) := by
  simp [recordedValue, recordedEntry_eq kwargs n v hv, entryJson,
        Json.getField, List.lookup]

/-- The key list of the inputs object is the list of supplied input
names, in order. -/
theorem keys_inputsJson (kwargs : List (String × PyValue)) :
    (inputsJson kwargs).keys = kwargs.map Prod.fst := by
  induction kwargs with
  | nil => rfl
  | cons p rest ih =>
      simp only [inputsJson, Json.keys, List.map_cons] at ih ⊢
      rw [ih]

/-- A pair of distinct-name inputs used to instantiate the universally
quantified claims. -/
def kwargsW : List (String × PyValue) := [("a", pyInt 1), ("b", pyInt 2)]

/-- Claim C1: for every input set of distinct names, the decoded output
object's input_count field equals the number of distinct input names. -/
theorem execute_input_count_eq_size (kwargs : List (String × PyValue))
    (h : (kwargs.map Prod.fst).Nodup) :
    (stateOf kwargs).getField "input_count" =
      some (.int ((kwargs.map Prod.fst).toFinset.card)) ∧
    execute defaultNode kwargs = [dumps (stateOf kwargs)] := by
  refine ⟨?_, rfl⟩
  rw [getField_input_count, List.toFinset_card_of_nodup h, List.length_map]

/-- Witness for C1 at the concrete two-input set kwargsW. -/
theorem execute_input_count_eq_size_witness :
    (stateOf kwargsW).getField "input_count" =
      some (.int ((kwargsW.map Prod.fst).toFinset.card)) ∧
    execute defaultNode kwargsW = [dumps (stateOf kwargsW)] :=
  execute_input_count_eq_size kwargsW (by decide)

/-- Claim C2: for every input set of distinct names, the keys of the
output's inputs mapping are exactly the supplied input names, each
appearing exactly once. -/
theorem execute_inputs_keys_match (kwargs : List (String × PyValue))
    (h : (kwargs.map Prod.fst).Nodup) :
    (inputsJson kwargs).keys = kwargs.map Prod.fst ∧
    (∀ n, n ∈ kwargs.map Prod.fst → ((inputsJson kwargs).keys).count n = 1) ∧
    execute defaultNode kwargs = [dumps (stateOf kwargs)] := by
  refine ⟨keys_inputsJson kwargs, ?_, rfl⟩
  intro n hn
  rw [keys_inputsJson kwargs]
  exact List.count_eq_one_of_mem h hn

/-- Witness for C2 at the concrete two-input set kwargsW. -/
theorem execute_inputs_keys_match_witness :
    (inputsJson kwargsW).keys = kwargsW.map Prod.fst ∧
    (∀ n, n ∈ kwargsW.map Prod.fst → ((inputsJson kwargsW).keys).count n = 1) ∧
    execute defaultNode kwargsW = [dumps (stateOf kwargsW)] :=
  execute_inputs_keys_match kwargsW (by decide)

/-- A 101-character string, longer than the 100-character cut. -/
def longStr : String := String.mk (List.replicate 101 'a')

/-- A tensor-like value whose generic string conversion is 101
characters long and which also exposes shape [2, 3]. -/
def tensorLike : PyValue :=
  { typeName := "Tensor", strForm := longStr, shape := some [2, 3] }

/-- Counterexample to claim C3 as stated: the value tensorLike has a
string conversion longer than 100 characters, yet its recorded value
string is "tensor[2, 3]", not the first 100 characters of the string
conversion, because the shape branch takes precedence. -/
theorem value_truncation_cex :
    100 < tensorLike.strForm.length ∧
    List.lookup "x" [("x", tensorLike)] = some tensorLike ∧
    recordedValue [("x", tensorLike)] "x" ≠
      some (.str (tensorLike.strForm.take 100)) := by
  refine ⟨by decide, rfl, ?_⟩
  have h1 : recordedValue [("x", tensorLike)] "x" =
      some (.str "tensor[2, 3]") := rfl
  rw [h1]
  intro h
  have h2 : "tensor[2, 3]" = tensorLike.strForm.take 100 := by
    injection h with h3
    injection h3
  exact absurd h2 (by decide)

/-- Claim C3 amended: for every input value that does not expose a shape
attribute and whose generic string conversion is longer than 100
characters, the recorded value string is the first 100 characters of
that conversion. -/
theorem value_truncated (kwargs : List (String × PyValue)) (n : String)
    (v : PyValue) (hv : kwargs.lookup n = some v) (hsh : v.shape = none)
    (_hlen : 100 < v.strForm.length) :
    recordedValue kwargs n = some (.str (v.strForm.take 100)) := by
  rw [recordedValue_eq kwargs n v hv]
  simp [valRepr, hsh]

/-- A shapeless value with a 101-character string conversion. -/
def plainLong : PyValue :=
  { typeName := "str", strForm := String.mk (List.replicate 101 'b'),
    shape := none }

/-- Witness for the amended C3 at the concrete value plainLong. -/
theorem value_truncated_witness :
    recordedValue [("y", plainLong)] "y" =
      some (.str (plainLong.strForm.take 100)) :=
  value_truncated [("y", plainLong)] "y" plainLong rfl rfl (by decide)

/-- Claim C4: for every input value exposing shape [2, 3], the recorded
value string is exactly "tensor[2, 3]". -/
theorem shape_two_three (kwargs : List (String × PyValue)) (n : String)
    (v : PyValue) (hv : kwargs.lookup n = some v)
    (hs : v.shape = some [2, 3]) :
    recordedValue kwargs n = some (.str "tensor[2, 3]") := by
  rw [recordedValue_eq kwargs n v hv]
  simp [valRepr, hs]
  rfl

/-- A tensor-like value of shape [2, 3] with a short string form. -/
def tensor23 : PyValue :=
  { typeName := "Tensor", strForm := "t", shape := some [2, 3] }

/-- Witness for C4 at the concrete value tensor23. -/
theorem shape_two_three_witness :
    recordedValue [("z", tensor23)] "z" = some (.str "tensor[2, 3]") :=
  shape_two_three [("z", tensor23)] "z" tensor23 rfl rfl

/-- Claim C5: whenever a value exposes a shape, the recorded value
string is "tensor" followed by the stringified shape list, whatever its
generic string conversion is (the shape branch takes precedence and no
truncation applies); moreover such a recorded string can exceed 100
characters. -/
theorem shape_branch_precedence :
    (∀ (kwargs : List (String × PyValue)) (n : String) (v : PyValue)
        (sh : List Int), kwargs.lookup n = some v → v.shape = some sh →
        recordedValue kwargs n = some (.str ("tensor" ++ pyListRepr sh))) ∧
    (∃ v : PyValue, v.shape.isSome = true ∧ 100 < (valRepr v).length) := by
  constructor
  · intro kwargs n v sh hv hs
    rw [recordedValue_eq kwargs n v hv]
    simp [valRepr, hs]
  · exact ⟨{ typeName := "Tensor", strForm := "s",
             shape := some (List.replicate 40 2) }, rfl, by decide⟩

/-- A tensor-like value with a 40-dimensional shape. -/
def bigShape : PyValue :=
  { typeName := "Tensor", strForm := "s", shape := some (List.replicate 40 2) }

/-- Witness for C5 at the concrete value bigShape. -/
theorem shape_branch_precedence_witness :
    recordedValue [("t", bigShape)] "t" =
      some (.str ("tensor" ++ pyListRepr (List.replicate 40 2))) :=
  shape_branch_precedence.1 [("t", bigShape)] "t" bigShape
    (List.replicate 40 2) rfl rfl

/-- Claim C6: execute is a pure function of its keyword arguments; in
particular its output does not depend on the receiver instance, and two
calls with identical input sets return byte-identical strings. -/
theorem execute_pure_deterministic :
    ∀ (s₁ s₂ : DynamicInputs) (kwargs : List (String × PyValue)),
      execute s₁ kwargs = execute s₂ kwargs :=
  fun _ _ _ => rfl

/-- Claim C7: execute returns a single-element tuple whose sole element
is the 2-space-indented JSON serialization of an object with exactly
the fields input_count and inputs, each inputs entry holding the
runtime type name and the rendered value string. -/
theorem execute_output_format (self : DynamicInputs)
    (kwargs : List (String × PyValue)) :
    execute self kwargs =
      [dumps (.obj [("input_count", .int kwargs.length),
        ("inputs", .obj (kwargs.map (fun p =>
          (p.1, .obj [("type", .str p.2.typeName),
                      ("value", .str (valRepr p.2))]))))])] ∧
    (execute self kwargs).length = 1 :=
  ⟨rfl, rfl⟩

/-- Claim C8: on the empty input set, the output decodes to the object
with input_count 0 and an empty inputs mapping, and the returned string
is exactly the corresponding two-line pretty-printed document. -/
theorem execute_empty_scenario :
    stateOf [] = .obj [("input_count", .int 0), ("inputs", .obj [])] ∧
    execute defaultNode [] =
      [dumps (.obj [("input_count", .int 0), ("inputs", .obj [])])] ∧
    dumps (.obj [("input_count", .int 0), ("inputs", .obj [])]) =
      "\x7b\n  \"input_count\": 0,\n  \"inputs\": \x7b\x7d\n\x7d" :=
  ⟨rfl, rfl, by decide⟩

/-- Claim C9: on the single input x holding the Python integer 5, the
output decodes to input_count 1 with the single entry x of type "int"
and value "5", and the returned string is exactly the corresponding
pretty-printed document. -/
theorem execute_single_int_scenario :
    stateOf [("x", pyInt 5)] =
      .obj [("input_count", .int 1),
            ("inputs", .obj [("x", .obj [("type", .str "int"),
                                         ("value", .str "5")])])] ∧
    execute defaultNode [("x", pyInt 5)] =
      [dumps (stateOf [("x", pyInt 5)])] ∧
    dumps (stateOf [("x", pyInt 5)]) =
      "\x7b\n  \"input_count\": 1,\n  \"inputs\": \x7b\n    \"x\": \x7b\n      \"type\": \"int\",\n      \"value\": \"5\"\n    \x7d\n  \x7d\n\x7d" :=
  ⟨rfl, rfl, by decide⟩

/-- Claim C10: INPUT_TYPES always returns the configuration whose keys
are exactly required and optional, both mapped to the empty mapping. -/
theorem input_types_both_empty :
    ∀ c : Unit, INPUT_TYPES c = [("required", []), ("optional", [])] ∧
      (INPUT_TYPES c).map Prod.fst = ["required", "optional"] :=
  fun _ => ⟨rfl, rfl⟩
